import Mathlib

/-!
Shallow embedding of the Chichewa RAG chatbot repository
(src/translator.py, src/rag_chain.py, src/spe_chain.py, app.py).

Modelling conventions:
- Every network call (LLM chat completion, vector-store similarity search)
  is an oracle: a function from the data the code puts into the request to
  `Except Unit α`, where `Except.error ()` models a raised exception and
  `Except.ok v` a successful response.  A pipeline function receives the
  oracles it may consult as an explicit environment argument, so a function
  that does not take (or does not use) an oracle provably makes no such call.
- Python strings are Lean `String`; `str.strip` is `String.trim`,
  `str.lower` is `String.toLower`, `str.split()` followed by
  `' '.join(...)` is modelled by splitting on whitespace and interleaving
  single spaces.  `dict.get(k, default)` on metadata becomes
  `Option.getD`.
- Timestamps (`datetime.now()`) are integers counting seconds.
-/

namespace ChichewaBot

/-! ## Python string primitives

Kernel-computable models of the Python string methods the code uses,
written over `List Char` with structural (or fuel-based) recursion so that
concrete instances evaluate by `decide` / `rfl`. -/

/-- Python `s.strip()`: drop leading and trailing whitespace. -/
def pyStrip (s : String) : String :=
  String.mk (((s.data.dropWhile Char.isWhitespace).reverse.dropWhile Char.isWhitespace).reverse)

/-- Python `s.lower()` (ASCII case mapping). -/
def pyLower (s : String) : String :=
  String.mk (s.data.map Char.toLower)

/-- Python `s.startswith(pre)`. -/
def pyStartsWith (s pre : String) : Bool :=
  pre.data.isPrefixOf s.data

/-- Python `s.split()` with no argument: maximal runs of non-whitespace
characters, with no empty chunks.  `acc` holds the current word reversed. -/
def pyWordsAux : List Char → List Char → List (List Char)
  | [], acc => if acc.isEmpty then [] else [acc.reverse]
  | c :: rest, acc =>
    if c.isWhitespace then
      if acc.isEmpty then pyWordsAux rest [] else acc.reverse :: pyWordsAux rest []
    else pyWordsAux rest (c :: acc)

/-- Python `s.split()`. -/
def pyWords (s : String) : List (List Char) := pyWordsAux s.data []

/-- Python `s.replace(pat, repl)` on character lists, with the input length
as fuel (each step consumes at least one character, so the fuel never runs
out). -/
def listReplaceAll (pat repl : List Char) : Nat → List Char → List Char
  | _, [] => []
  | 0, s => s
  | fuel + 1, c :: rest =>
    if pat.isPrefixOf (c :: rest) ∧ pat ≠ [] then
      repl ++ listReplaceAll pat repl fuel ((c :: rest).drop pat.length)
    else
      c :: listReplaceAll pat repl fuel rest

/-- Python `s.replace(pat, repl)` (replace every occurrence). -/
def pyReplaceAll (s pat repl : String) : String :=
  String.mk (listReplaceAll pat.data repl.data s.data.length s.data)

/-! ## translator.py -/

/-- The PRODUCT_NAMES constant of src/translator.py. -/
def PRODUCT_NAMES : List String :=
  ["amayi angathe", "mlimi", "fiestasave", "banknet", "mo626", "mo626ice",
   "fcda", "itf", "diaspora", "step up", "payday loan", "mortgage",
   "visa debit", "eft", "call account", "current account", "savings account",
   "fixed term deposit", "student serve", "special savers", "contactless card",
   "documentary", "standby letter", "custody services", "payment gateway",
   "consumer loan", "vehicle loan", "asset based", "employer guaranteed"]

/-- Regex word character, the \w class of Python's re module (ASCII view). -/
def isWordChar (c : Char) : Bool := c.isAlphanum || c = '_'

/-- Whether a regex word boundary \b separates the character just inside a
match (if any) from the character just outside it (if any).  At the edge of
the whole string the boundary holds exactly when the inside character is a
word character. -/
def boundaryEdge (inside : Option Char) (outside : Option Char) : Bool :=
  match inside with
  | none => false
  | some c =>
    match outside with
    | none => isWordChar c
    | some o => isWordChar c != isWordChar o

/-- Whether the pattern `pat` matches at the head of `s` as the regex
\b pat \b would, where `prev` is the character immediately before this
position in the original string (none at the start). -/
def bMatch (prev : Option Char) (s pat : List Char) : Bool :=
  !pat.isEmpty && pat.isPrefixOf s &&
    boundaryEdge pat.head? prev &&
    boundaryEdge pat.getLast? (s.drop pat.length).head?

/-- The scanning loop of `re.sub(r'\b' ++ pat ++ r'\b', '', s)`:
walk over `s`, deleting each word-bounded occurrence of `pat`, carrying the
character that precedes the current position in the original string.  The
fuel (initially the length of `s`) only bounds the recursion; each step
consumes at least one character. -/
def subWordBoundedAux (pat : List Char) : Nat → Option Char → List Char → List Char
  | _, _, [] => []
  | 0, _, s => s
  | fuel + 1, prev, c :: rest =>
    if bMatch prev (c :: rest) pat then
      subWordBoundedAux pat fuel pat.getLast? ((c :: rest).drop pat.length)
    else
      c :: subWordBoundedAux pat fuel (some c) rest

/-- Model of `re.sub(r'\b' + re.escape(pat) + r'\b', '', s)`, deleting every
word-bounded occurrence of `pat` from `s`. -/
def pySubWordBounded (s : String) (pat : String) : String :=
  String.mk (subWordBoundedAux pat.data s.data.length none s.data)

/-- Model of `' '.join(s.split()).strip()`: collapse all whitespace runs to
single spaces and drop leading/trailing whitespace. -/
def normalizeWhitespace (s : String) : String :=
  pyStrip (String.mk (List.intercalate [' '] (pyWords s)))

/-- The preprocessing of `Translator.detect_language`: lowercase the text,
delete each banking product name (word-bounded) in the order of
PRODUCT_NAMES, then normalize whitespace. -/
def cleanedText (text : String) : String :=
  normalizeWhitespace (PRODUCT_NAMES.foldl (fun acc product => pySubWordBounded acc product) (pyLower text))

/-- The text `Translator.detect_language` actually inserts into the
detection prompt: the cleaned text, unless fewer than 5 characters remain
after cleaning, in which case the original text. -/
def textSentToModel (text : String) : String :=
  let cleaned := cleanedText text
  if cleaned.length < 5 then text else cleaned

/-- Oracle environment for the Translator: one entry per distinct LLM
request the module can issue, keyed by the text the code puts into the
prompt. -/
structure TranslatorEnv where
  detectResp : String → Except Unit String
  translateEnResp : String → Except Unit String
  translateChiResp : String → Except Unit String

/-- Model of `Translator.detect_language`. -/
def detect_language (env : TranslatorEnv) (text : String) : String :=
  match env.detectResp (textSentToModel text) with
  | Except.error _ => "english"
  | Except.ok content =>
    let language := pyLower (pyStrip content)
    if language ≠ "english" ∧ language ≠ "chichewa" then "english"
    else language

/-- Model of `Translator.translate_to_english`. -/
def translate_to_english (env : TranslatorEnv) (chichewa_text : String) : String :=
  match env.translateEnResp chichewa_text with
  | Except.error _ => "[Translation failed: " ++ chichewa_text ++ "]"
  | Except.ok content => pyStrip content

/-- Model of the first-occurrence replacement `s.replace(pat, repl, 1)` of
Python, on character lists. -/
def listReplaceFirst (pat repl : List Char) : List Char → List Char
  | [] => []
  | c :: rest =>
    if pat.isPrefixOf (c :: rest) ∧ pat ≠ [] then
      repl ++ (c :: rest).drop pat.length
    else
      c :: listReplaceFirst pat repl rest

/-- Python `s.replace(pat, repl, 1)` for strings. -/
def pyReplaceFirst (s pat repl : String) : String :=
  String.mk (listReplaceFirst pat.data repl.data s.data)

/-- Model of `Translator._naturalize_chichewa_greetings`: drop a leading
formal greeting "Moni!" or "Moni," (first occurrence only) and strip the
remainder. -/
def naturalize_chichewa_greetings (text : String) : String :=
  if pyStartsWith text "Moni!" ∨ pyStartsWith text "Moni," then
    if pyStartsWith text "Moni!" then pyStrip (pyReplaceFirst text "Moni!" "")
    else if pyStartsWith text "Moni," then pyStrip (pyReplaceFirst text "Moni," "")
    else text
  else text

/-- Model of `Translator.translate_to_chichewa`, including the greeting
post-processing. -/
def translate_to_chichewa (env : TranslatorEnv) (english_text : String) : String :=
  match env.translateChiResp english_text with
  | Except.error _ => "[Translation failed: " ++ english_text ++ "]"
  | Except.ok content => naturalize_chichewa_greetings (pyStrip content)

/-! ## rag_chain.py -/

/-- A langchain Document as returned by the vector store: page content and
the two metadata entries `retrieve_documents` reads (absent entries modelled
by `none`). -/
structure Doc where
  page_content : String
  metadata_source : Option String
  metadata_file_path : Option String

/-- The per-document dictionary built by `retrieve_documents`. -/
structure RetrievedDoc where
  content : String
  source : String
  file_path : String
deriving DecidableEq

/-- The formatting of one vector-store document inside
`retrieve_documents`: `doc.metadata.get("source", "Unknown")` and
`doc.metadata.get("file_path", "")`. -/
def formatDoc (d : Doc) : RetrievedDoc :=
  { content := d.page_content
    source := d.metadata_source.getD "Unknown"
    file_path := d.metadata_file_path.getD "" }

/-- Oracle environment for ChichewaRAGChain: the translator's oracles plus
one oracle per distinct remote call the chain issues (classifier LLM,
vector-store similarity search, answer-generation LLM on the two prompt
shapes), each keyed by the data the code puts into the request. -/
structure RAGEnv where
  translator : TranslatorEnv
  classifyResp : String → Except Unit String
  searchResp : String → Nat → Except Unit (List Doc)
  generateResp : String → List RetrievedDoc → Except Unit String
  noResultsResp : String → Except Unit String

/-- Configuration state of ChichewaRAGChain fixed at construction. -/
structure ChichewaRAGChain where
  model : String
  retrieval_k : Nat

/-- Model of `ChichewaRAGChain.__init__` with its default arguments
(`model="gpt-4"`, `retrieval_k=5`). -/
def ChichewaRAGChain.init (model : String := "gpt-4") (retrieval_k : Nat := 5) :
    ChichewaRAGChain :=
  { model := model, retrieval_k := retrieval_k }

/-- The valid_categories list of `ChichewaRAGChain.classify_query`. -/
def valid_categories : List String :=
  ["greeting", "out_of_scope", "product_inquiry",
   "comparison_query", "procedure_question", "general_info"]

/-- Model of `ChichewaRAGChain.classify_query`: strip and lowercase the
classifier reply, keep it when it is a valid category, otherwise (and on
exception) fall back to "product_inquiry". -/
def classify_query (env : RAGEnv) (english_query : String) : String :=
  match env.classifyResp english_query with
  | Except.error _ => "product_inquiry"
  | Except.ok content =>
    let classification := pyLower (pyStrip content)
    if ¬ valid_categories.contains classification then "product_inquiry"
    else classification

/-- The greeting_english constant of `ChichewaRAGChain.handle_greeting`. -/
def greeting_english : String :=
  "Hello! I\x27m here to help you with questions about bank products and services. " ++
  "You can ask me about different types of accounts, loans, cards, payments, " ++
  "or any banking services. What would you like to know?"

/-- Model of `ChichewaRAGChain.handle_greeting`. -/
def handle_greeting (env : RAGEnv) (language : String := "chichewa") : String :=
  if language = "english" then greeting_english
  else translate_to_chichewa env.translator greeting_english

/-- The out_of_scope_english constant of
`ChichewaRAGChain.handle_out_of_scope`. -/
def out_of_scope_english : String :=
  "I\x27m sorry, but I\x27m designed specifically to answer questions about bank products " ++
  "and services. I can help you with information about accounts, loans, cards, " ++
  "payment services, and other banking topics. " ++
  "Is there anything about our bank products you\x27d like to know?"

/-- Model of `ChichewaRAGChain.handle_out_of_scope`. -/
def handle_out_of_scope (env : RAGEnv) (language : String := "chichewa") : String :=
  if language = "english" then out_of_scope_english
  else translate_to_chichewa env.translator out_of_scope_english

/-- Model of `ChichewaRAGChain.retrieve_documents`: similarity search with
`k = self.retrieval_k`, formatting each returned document, empty list on
exception. -/
def retrieve_documents (chain : ChichewaRAGChain) (env : RAGEnv)
    (english_query : String) : List RetrievedDoc :=
  match env.searchResp english_query chain.retrieval_k with
  | Except.error _ => []
  | Except.ok docs => docs.map formatDoc

/-- The hard-coded fallback answer of the no-results branch of
`ChichewaRAGChain.generate_answer`. -/
def no_results_fallback : String :=
  "I apologize, but I couldn\x27t find specific information about that in my " ++
  "knowledge base. Could you try rephrasing your question or asking about a " ++
  "different aspect of our banking products?"

/-- One step of the loop of `ChichewaRAGChain.generate_answer` that collects
the distinct source names: `if doc['source'] not in sources:
sources.append(doc['source'])`. -/
def addDistinct (sources : List String) (s : String) : List String :=
  if sources.contains s then sources else sources ++ [s]

/-- The whole source-collecting loop of `ChichewaRAGChain.generate_answer`. -/
def collectSources (retrieved_docs : List RetrievedDoc) : List String :=
  retrieved_docs.foldl (fun sources doc => addDistinct sources doc.source) []

/-- Model of `ChichewaRAGChain.generate_answer`: the pair (answer, source
list).  With no retrieved documents the no-results prompt is used and the
source list is empty; otherwise the answer prompt is used and the source
list holds the distinct document sources. -/
def generate_answer (env : RAGEnv) (english_query : String)
    (retrieved_docs : List RetrievedDoc) (language : String := "english") :
    String × List String :=
  if retrieved_docs.isEmpty then
    match env.noResultsResp english_query with
    | Except.error _ => (no_results_fallback, [])
    | Except.ok content => (pyStrip content, [])
  else
    let sources := collectSources retrieved_docs
    match env.generateResp english_query retrieved_docs with
    | Except.error _ => ("I encountered an error generating the answer.", sources)
    | Except.ok content => (pyStrip content, sources)

/-- The response dictionary of `ChichewaRAGChain.answer_query`; the two
metadata entries are present (`some`) only when requested. -/
structure RAGResponse where
  answer : String
  query_type : String
  sources : List String
  english_query : String
  detected_language : String
  english_answer : Option String := none
  retrieved_docs : Option (List RetrievedDoc) := none
deriving DecidableEq

/-- Model of `ChichewaRAGChain.answer_query`: detect the language,
translate Chichewa queries to English, classify, then either answer with a
canned greeting / out-of-scope message or run retrieval and generation and
translate the answer back when needed. -/
def answer_query (chain : ChichewaRAGChain) (env : RAGEnv)
    (user_query : String) (return_metadata : Bool := false) : RAGResponse :=
  let detected_language := detect_language env.translator user_query
  let english_query :=
    if detected_language = "chichewa" then translate_to_english env.translator user_query
    else user_query
  let query_type := classify_query env english_query
  if query_type = "greeting" then
    { answer := handle_greeting env detected_language
      query_type := "greeting"
      sources := []
      english_query := english_query
      detected_language := detected_language }
  else if query_type = "out_of_scope" then
    { answer := handle_out_of_scope env detected_language
      query_type := "out_of_scope"
      sources := []
      english_query := english_query
      detected_language := detected_language }
  else
    let retrieved_docs := retrieve_documents chain env english_query
    let ga := generate_answer env english_query retrieved_docs detected_language
    let english_answer := ga.1
    let sources := ga.2
    let final_answer :=
      if detected_language = "chichewa" then translate_to_chichewa env.translator english_answer
      else english_answer
    { answer := final_answer
      query_type := query_type
      sources := sources
      english_query := english_query
      detected_language := detected_language
      english_answer := if return_metadata then some english_answer else none
      retrieved_docs := if return_metadata then some retrieved_docs else none }

/-! ## spe_chain.py -/

/-- One product record of the in-code knowledge base of
`StructuredPromptChain._load_or_create_knowledge_base`.  The Python fees
dict is an association list in insertion order. -/
structure Product where
  name : String
  category : String
  target_audience : String
  benefits : List String
  requirements : List String
  fees : List (String × String)
  features : List String

/-- The general_info part of the knowledge base. -/
structure GeneralInfo where
  bank_name : String
  working_hours : String
  customer_service : String
  website : String

/-- The whole knowledge base dictionary. -/
structure KnowledgeBase where
  products : List (String × Product)
  general_info : GeneralInfo

/-- The amayi_angathe product of the knowledge base. -/
def amayi_angathe_product : Product :=
  { name := "Amayi Angathe Business Savings Account"
    category := "savings"
    target_audience := "Women entrepreneurs and business owners"
    benefits :=
      ["Free monthly maintenance for the first 6 months",
       "Free ATM card upon account opening",
       "Low minimum balance of MK 3,000",
       "Free salary payments via EFT",
       "50% discount on EFT transaction fees",
       "Access to Mo626 services without charges"]
    requirements :=
      ["Valid national ID",
       "Proof of business registration or trading license",
       "Initial deposit of MK 3,000",
       "Passport-sized photograph",
       "Proof of residence"]
    fees :=
      [("monthly_maintenance", "MK 0 (first 6 months), then MK 200"),
       ("atm_withdrawals", "Free at FDH ATMs, MK 150 at other banks"),
       ("balance_inquiry", "Free"),
       ("eft_transfers", "50% discount on standard fees")]
    features :=
      ["Mobile banking access",
       "Internet banking",
       "ATM/debit card",
       "Overdraft facility available",
       "Cheque book available"] }

/-- The mlimi product of the knowledge base. -/
def mlimi_product : Product :=
  { name := "Mlimi Loan"
    category := "loan"
    target_audience := "Farmers and agricultural businesses"
    benefits :=
      ["Competitive interest rates for agriculture",
       "Flexible repayment schedule aligned with harvest cycles",
       "Quick loan processing (7-10 days)",
       "Loan amounts from MK 50,000 to MK 5,000,000",
       "No collateral required for loans under MK 200,000"]
    requirements :=
      ["Valid national ID",
       "Proof of farming activity (land ownership/lease)",
       "Business plan or farming proposal",
       "Collateral for loans above MK 200,000",
       "Bank account with FDH for at least 3 months"]
    fees :=
      [("interest_rate", "18-22% per annum (depending on loan size)"),
       ("processing_fee", "2% of loan amount"),
       ("insurance", "1.5% of loan amount annually")]
    features :=
      ["Grace period available during planting season",
       "Flexible repayment terms (6-24 months)",
       "Loan top-up facility for existing customers",
       "Agricultural insurance options"] }

/-- The fixed dictionary returned by
`StructuredPromptChain._load_or_create_knowledge_base`. -/
def knowledge_base : KnowledgeBase :=
  { products :=
      [("amayi_angathe", amayi_angathe_product),
       ("mlimi", mlimi_product)]
    general_info :=
      { bank_name := "FDH Bank"
        working_hours := "Monday-Friday: 8:00 AM - 5:00 PM, Saturday: 8:00 AM - 12:00 PM"
        customer_service := "Call 313 or +265 1 832 777"
        website := "www.fdhbank.com" } }

/-- Dictionary membership test and lookup for
`self.knowledge_base['products']`. -/
def kb_lookup (key : String) : Option Product :=
  (knowledge_base.products.find? (fun kp => kp.1 == key)).map (fun kp => kp.2)

/-- Python's str.title() for ASCII text: uppercase every letter that follows
a non-letter (or starts the string), lowercase every other letter. -/
def titleAux : Bool → List Char → List Char
  | _, [] => []
  | prevCased, c :: rest =>
    (if c.isAlpha then (if prevCased then c.toLower else c.toUpper) else c) ::
      titleAux c.isAlpha rest

/-- Python `s.title()`. -/
def pyTitle (s : String) : String := String.mk (titleAux false s.data)

/-- The numbered lines `f"{i}. {item}\n"` produced by
`enumerate(items, 1)` in `build_structured_context`. -/
def numberedLines (items : List String) : String :=
  String.join ((items.enumFrom 1).map (fun p => toString p.1 ++ ". " ++ p.2 ++ "\n"))

/-- One fees line of `build_structured_context`:
`f"- {fee_type.replace('_', ' ').title()}: {amount}\n"`. -/
def feeLine (fee : String × String) : String :=
  "- " ++ pyTitle (pyReplaceAll fee.1 "_" " ") ++ ": " ++ fee.2 ++ "\n"

/-- The specific-product branch of `build_structured_context`: the product
header followed by the sections selected by the intent. -/
def productContext (query_intent : String) (product : Product) : String :=
  let context := "PRODUCT: " ++ product.name ++ "\n" ++
    "CATEGORY: " ++ product.category ++ "\n" ++
    "TARGET AUDIENCE: " ++ product.target_audience ++ "\n\n"
  let context :=
    if query_intent = "benefits" ∨ query_intent = "general" then
      context ++ "BENEFITS:\n" ++ numberedLines product.benefits ++ "\n"
    else context
  let context :=
    if query_intent = "requirements" ∨ query_intent = "general" then
      context ++ "REQUIREMENTS:\n" ++ numberedLines product.requirements ++ "\n"
    else context
  let context :=
    if query_intent = "fees" ∨ query_intent = "general" then
      context ++ "FEES:\n" ++ String.join (product.fees.map feeLine) ++ "\n"
    else context
  let context :=
    if query_intent = "features" ∨ query_intent = "general" then
      context ++ "FEATURES:\n" ++ numberedLines product.features ++ "\n"
    else context
  context

/-- One bullet entry of the all-products listing of
`build_structured_context`. -/
def listingEntry (query_intent : String) (product : Product) : String :=
  "• " ++ product.name ++ " (" ++ product.category ++ ")\n" ++
  "  Target: " ++ product.target_audience ++ "\n" ++
  (if query_intent = "benefits" ∨ query_intent = "general" then
    "  Key Benefits: " ++ String.intercalate ", " (product.benefits.take 3) ++ "\n"
  else "") ++
  "\n"

/-- The general branch of `build_structured_context`: a listing of all
products of the knowledge base. -/
def allProductsContext (query_intent : String) : String :=
  "AVAILABLE BANKING PRODUCTS:\n\n" ++
    String.join (knowledge_base.products.map (fun kp => listingEntry query_intent kp.2))

/-- Model of `StructuredPromptChain.build_structured_context`.  The Python
guard `if product_key and product_key in self.knowledge_base['products']`
treats both None and the empty string as falsy. -/
def build_structured_context (query_intent : String)
    (product_key : Option String := none) : String :=
  match product_key with
  | some key =>
    if key ≠ "" then
      match kb_lookup key with
      | some product => productContext query_intent product
      | none => allProductsContext query_intent
    else allProductsContext query_intent
  | none => allProductsContext query_intent

/-! ## app.py -/

def MAX_QUERIES_PER_SESSION : Nat := 20
def MAX_QUERIES_PER_HOUR : Nat := 10
def RATE_LIMIT_WINDOW : Int := 3600

/-- The rate_limiter_data dictionary kept in the Streamlit session state;
timestamps are seconds. -/
structure RateLimiterData where
  session_count : Nat
  hourly_queries : List Int
  session_start : Int

/-- The fresh rate-limiter state installed by `RateLimiter.__init__` (and
by `clear_chat_history`). -/
def RateLimiterData.initial (now : Int) : RateLimiterData :=
  { session_count := 0, hourly_queries := [], session_start := now }

/-- The pruning of `hourly_queries` performed inside
`RateLimiter.can_make_query`: keep the timestamps newer than
`cutoff_time = now - RATE_LIMIT_WINDOW`. -/
def pruned_hourly (d : RateLimiterData) (now : Int) : List Int :=
  d.hourly_queries.filter (fun q => q > now - RATE_LIMIT_WINDOW)

/-- Model of `RateLimiter.can_make_query`.  `now` is `datetime.now()`.
Returns the (can_query, message) pair together with the session state the
method leaves behind: the method prunes `hourly_queries` in place, but only
after the session-limit check has passed. -/
def can_make_query (d : RateLimiterData) (now : Int) :
    Bool × String × RateLimiterData :=
  if d.session_count ≥ MAX_QUERIES_PER_SESSION then
    (false,
     "Mwaposa muyeso wa mafunso mu session iyi (" ++
       toString MAX_QUERIES_PER_SESSION ++
       " mafunso). Chonde yambitsaninso tsamba.",
     d)
  else
    if (pruned_hourly d now).length ≥ MAX_QUERIES_PER_HOUR then
      (false,
       "Mwaposa muyeso wa mafunso pa ola (" ++
         toString MAX_QUERIES_PER_HOUR ++
         " mafunso pa ola). Chonde yesani mu ola limene likubweralo.",
       { d with hourly_queries := pruned_hourly d now })
    else (true, "", { d with hourly_queries := pruned_hourly d now })

/-- Model of `RateLimiter.record_query`. -/
def record_query (d : RateLimiterData) (now : Int) : RateLimiterData :=
  { d with
    session_count := d.session_count + 1
    hourly_queries := d.hourly_queries ++ [now] }

/-- One pass of the chat-input branch of `main` as it acts on the
rate-limiter state: check the limit; on denial stop; on success run the RAG
chain and record the query only when that call did not raise
(`llm_ok`). -/
def mainLoopStep (d : RateLimiterData) (now recordTime : Int) (llm_ok : Bool) :
    RateLimiterData :=
  let r := can_make_query d now
  if r.1 then
    if llm_ok then record_query r.2.2 recordTime else r.2.2
  else r.2.2

/-- A whole session of the chat loop acting on the rate-limiter state. -/
def runMainLoop (d : RateLimiterData) (events : List (Int × Int × Bool)) :
    RateLimiterData :=
  events.foldl (fun d e => mainLoopStep d e.1 e.2.1 e.2.2) d

/-! ## Concrete oracle environments

Closed environments with constant oracle replies, used to instantiate the
theorems below on concrete runs. -/

/-- A translator environment with constant oracle replies. -/
def constTranslatorEnv (detect transEn transChi : Except Unit String) : TranslatorEnv :=
  { detectResp := fun _ => detect
    translateEnResp := fun _ => transEn
    translateChiResp := fun _ => transChi }

/-- A RAG environment with constant oracle replies. -/
def constRAGEnv (detect transEn transChi classify : Except Unit String)
    (search : Except Unit (List Doc)) (generate noResults : Except Unit String) :
    RAGEnv :=
  { translator := constTranslatorEnv detect transEn transChi
    classifyResp := fun _ => classify
    searchResp := fun _ _ => search
    generateResp := fun _ _ => generate
    noResultsResp := fun _ => noResults }

/-- An environment in which every remote call raises. -/
def allErrorRAGEnv : RAGEnv :=
  constRAGEnv (Except.error ()) (Except.error ()) (Except.error ())
    (Except.error ()) (Except.error ()) (Except.error ()) (Except.error ())

/-- An environment whose language detector answers "english" and whose
classifier answers "greeting". -/
def greetingRAGEnv : RAGEnv :=
  constRAGEnv (Except.ok "english") (Except.ok "translated query")
    (Except.ok "translated answer") (Except.ok "greeting")
    (Except.ok []) (Except.ok "generated answer") (Except.ok "no results answer")

/-- An environment for a plain English product inquiry that retrieves one
document. -/
def inquiryRAGEnv : RAGEnv :=
  constRAGEnv (Except.ok "english") (Except.ok "translated query")
    (Except.ok "translated answer") (Except.ok "product_inquiry")
    (Except.ok [{ page_content := "Savings account details"
                  metadata_source := some "products.pdf"
                  metadata_file_path := none }])
    (Except.ok "Here is the answer.") (Except.ok "no results answer")

/-- The chain built with all constructor defaults. -/
def defaultChain : ChichewaRAGChain := ChichewaRAGChain.init

/-! ## Theorems -/

theorem listReplaceFirst_eq_drop {pat s : List Char} (repl : List Char)
    (hpre : pat.isPrefixOf s = true) (hne : pat ≠ []) :
    listReplaceFirst pat repl s = repl ++ s.drop pat.length := by
  cases s with
  | nil =>
    cases pat with
    | nil => exact absurd rfl hne
    | cons a l => simp [List.isPrefixOf] at hpre
  | cons c rest =>
    unfold listReplaceFirst
    rw [if_pos ⟨hpre, hne⟩]

/-- C10: `Translator._naturalize_chichewa_greetings` returns its input
unchanged unless the input starts with "Moni!" or "Moni,"; in the latter
case it removes only that leading occurrence of the prefix (5 characters)
and strips the surrounding whitespace of the remainder. -/
theorem naturalize_chichewa_greetings_spec (text : String) :
    naturalize_chichewa_greetings text =
      (if pyStartsWith text "Moni!" then pyStrip (String.mk (text.data.drop 5))
       else if pyStartsWith text "Moni," then pyStrip (String.mk (text.data.drop 5))
       else text) := by
  unfold naturalize_chichewa_greetings pyReplaceFirst
  by_cases h1 : pyStartsWith text "Moni!" = true
  · have hpre : ("Moni!".data).isPrefixOf text.data = true := h1
    rw [listReplaceFirst_eq_drop "".data hpre (by decide)]
    simp [h1]
  · by_cases h2 : pyStartsWith text "Moni," = true
    · have hpre : ("Moni,".data).isPrefixOf text.data = true := h2
      rw [listReplaceFirst_eq_drop "".data hpre (by decide)]
      simp [h1, h2]
    · simp [h1, h2]

/-- C2: `ChichewaRAGChain.classify_query` strips and lowercases the
classifier reply, keeps it exactly when it is one of the six valid
categories, falls back to "product_inquiry" otherwise, and hence always
returns a member of the six-element category list. -/
theorem classify_query_spec (env : RAGEnv) (english_query : String) :
    classify_query env english_query ∈ valid_categories ∧
    (∀ content, env.classifyResp english_query = Except.ok content →
      classify_query env english_query =
        (if valid_categories.contains (pyLower (pyStrip content)) then
          pyLower (pyStrip content)
         else "product_inquiry")) ∧
    (∀ e, env.classifyResp english_query = Except.error e →
      classify_query env english_query = "product_inquiry") := by
  refine ⟨?_, ?_, ?_⟩
  · unfold classify_query
    cases h : env.classifyResp english_query with
    | error e =>
      show "product_inquiry" ∈ valid_categories
      decide
    | ok content =>
      show (if ¬ valid_categories.contains (pyLower (pyStrip content)) = true then
              "product_inquiry"
            else pyLower (pyStrip content)) ∈ valid_categories
      by_cases hc : valid_categories.contains (pyLower (pyStrip content)) = true
      · rw [if_neg (by simpa using hc)]
        exact List.mem_of_elem_eq_true hc
      · rw [if_pos (by simpa using hc)]
        decide
  · intro content hc
    unfold classify_query
    rw [hc]
    by_cases h2 : valid_categories.contains (pyLower (pyStrip content)) = true <;>
      simp [h2]
  · intro e he
    unfold classify_query
    rw [he]

/-- Witness for C2 at a concrete classifier reply that needs stripping and
lowercasing. -/
theorem classify_query_spec_witness :
    classify_query
        (constRAGEnv (Except.ok "english") (Except.error ()) (Except.error ())
          (Except.ok " Comparison_Query ") (Except.error ()) (Except.error ())
          (Except.error ()))
        "how do the accounts differ" = "comparison_query" := by
  have h :=
    (classify_query_spec
        (constRAGEnv (Except.ok "english") (Except.error ()) (Except.error ())
          (Except.ok " Comparison_Query ") (Except.error ()) (Except.error ())
          (Except.error ()))
        "how do the accounts differ").2.1 " Comparison_Query " rfl
  rw [h]
  decide

/-- C3: each network call is guarded by one try/except returning a fixed
fallback: classification falls back to "product_inquiry", retrieval to the
empty list, Chichewa-to-English translation to the bracketed failure
string, and language detection to "english". -/
theorem single_try_fallbacks (chain : ChichewaRAGChain) (env : RAGEnv)
    (tenv : TranslatorEnv) (english_query text : String) :
    (env.classifyResp english_query = Except.error () →
       classify_query env english_query = "product_inquiry") ∧
    (env.searchResp english_query chain.retrieval_k = Except.error () →
       retrieve_documents chain env english_query = []) ∧
    (tenv.translateEnResp text = Except.error () →
       translate_to_english tenv text = "[Translation failed: " ++ text ++ "]") ∧
    (tenv.detectResp (textSentToModel text) = Except.error () →
       detect_language tenv text = "english") := by
  refine ⟨?_, ?_, ?_, ?_⟩
  · intro h
    unfold classify_query
    rw [h]
  · intro h
    unfold retrieve_documents
    rw [h]
  · intro h
    unfold translate_to_english
    rw [h]
  · intro h
    unfold detect_language
    rw [h]

/-- Witness for C3: in the all-error environment every pipeline stage
returns its fallback. -/
theorem single_try_fallbacks_witness :
    classify_query allErrorRAGEnv "query" = "product_inquiry" ∧
    retrieve_documents defaultChain allErrorRAGEnv "query" = [] ∧
    translate_to_english allErrorRAGEnv.translator "moni" = "[Translation failed: moni]" ∧
    detect_language allErrorRAGEnv.translator "moni" = "english" := by
  have h := single_try_fallbacks defaultChain allErrorRAGEnv allErrorRAGEnv.translator "query" "moni"
  exact ⟨h.1 rfl, h.2.1 rfl, h.2.2.1 rfl, h.2.2.2 rfl⟩

/-- C8: `Translator.detect_language` always returns "english" or
"chichewa"; the stripped lowercased model reply is kept only when it is one
of those two strings, any other reply and a raised exception both yield
"english"; and when cleaning the lowercased input (removing the banking
product names) leaves fewer than 5 characters, the original text is sent to
the model instead of the cleaned text. -/
theorem detect_language_spec (env : TranslatorEnv) (text : String) :
    (detect_language env text = "english" ∨ detect_language env text = "chichewa") ∧
    (∀ content, env.detectResp (textSentToModel text) = Except.ok content →
      detect_language env text =
        (if pyLower (pyStrip content) = "english" ∨ pyLower (pyStrip content) = "chichewa" then
          pyLower (pyStrip content)
         else "english")) ∧
    (env.detectResp (textSentToModel text) = Except.error () →
      detect_language env text = "english") ∧
    ((cleanedText text).length < 5 → textSentToModel text = text) ∧
    (¬ (cleanedText text).length < 5 → textSentToModel text = cleanedText text) := by
  refine ⟨?_, ?_, ?_, ?_, ?_⟩
  · unfold detect_language
    cases h : env.detectResp (textSentToModel text) with
    | error e =>
      left
      rfl
    | ok content =>
      show (if pyLower (pyStrip content) ≠ "english" ∧ pyLower (pyStrip content) ≠ "chichewa" then
              "english"
            else pyLower (pyStrip content)) = "english" ∨
           (if pyLower (pyStrip content) ≠ "english" ∧ pyLower (pyStrip content) ≠ "chichewa" then
              "english"
            else pyLower (pyStrip content)) = "chichewa"
      by_cases hc : pyLower (pyStrip content) ≠ "english" ∧ pyLower (pyStrip content) ≠ "chichewa"
      · rw [if_pos hc]
        left
        rfl
      · rw [if_neg hc]
        rcases not_and_or.mp hc with h1 | h2
        · left
          exact not_not.mp h1
        · right
          exact not_not.mp h2
  · intro content hc
    unfold detect_language
    rw [hc]
    by_cases h2 : pyLower (pyStrip content) = "english" ∨ pyLower (pyStrip content) = "chichewa"
    · rw [if_pos h2]
      show (if _ ∧ _ then "english" else pyLower (pyStrip content)) = pyLower (pyStrip content)
      rcases h2 with h2 | h2 <;> simp [h2]
    · rw [if_neg h2]
      rw [not_or] at h2
      show (if _ ∧ _ then "english" else pyLower (pyStrip content)) = "english"
      rw [if_pos h2]
  · intro h
    unfold detect_language
    rw [h]
  · intro h
    unfold textSentToModel
    simp only [h, if_pos]
  · intro h
    unfold textSentToModel
    simp only [h]
    simp

/-- Witness for C8: on the query "mo626" the cleaning removes the whole
text, so the original text is sent to the detector, and an off-format reply
falls back to "english". -/
theorem detect_language_spec_witness :
    detect_language
        (constTranslatorEnv (Except.ok "it is Chichewa") (Except.error ()) (Except.error ()))
        "mo626" = "english" ∧
    textSentToModel "mo626" = "mo626" := by
  have h :=
    detect_language_spec
      (constTranslatorEnv (Except.ok "it is Chichewa") (Except.error ()) (Except.error ()))
      "mo626"
  refine ⟨?_, h.2.2.2.1 (by decide)⟩
  have h2 := h.2.1 "it is Chichewa" rfl
  rw [h2]
  decide

theorem foldl_addDistinct_map (docs : List RetrievedDoc) (acc : List String) :
    docs.foldl (fun sources doc => addDistinct sources doc.source) acc =
      (docs.map (fun d => d.source)).foldl addDistinct acc := by
  induction docs generalizing acc with
  | nil => rfl
  | cons d ds ih =>
    simp only [List.foldl, List.map]
    exact ih _

theorem elem_reverse (a : String) (bs : List String) :
    List.elem a bs.reverse = List.elem a bs := by
  cases hb : List.elem a bs with
  | true => exact List.elem_eq_true_of_mem (List.mem_reverse.mpr (List.mem_of_elem_eq_true hb))
  | false =>
    cases hr : List.elem a bs.reverse with
    | false => rfl
    | true =>
      have h1 : List.elem a bs = true :=
        List.elem_eq_true_of_mem (List.mem_reverse.mp (List.mem_of_elem_eq_true hr))
      rw [hb] at h1
      exact absurd h1 Bool.false_ne_true

theorem eraseDups_loop_eq_foldl (l bs : List String) :
    List.eraseDups.loop l bs = l.foldl addDistinct bs.reverse := by
  induction l generalizing bs with
  | nil => rfl
  | cons a as ih =>
    show (match bs.elem a with
          | true => List.eraseDups.loop as bs
          | false => List.eraseDups.loop as (a :: bs)) =
         (a :: as).foldl addDistinct bs.reverse
    simp only [List.foldl]
    cases hb : bs.elem a with
    | true =>
      have ha : addDistinct bs.reverse a = bs.reverse := by
        unfold addDistinct
        rw [if_pos (show bs.reverse.contains a = true from (elem_reverse a bs).trans hb)]
      rw [ha, ih]
    | false =>
      have hcc : bs.reverse.contains a = false := (elem_reverse a bs).trans hb
      have ha : addDistinct bs.reverse a = bs.reverse ++ [a] := by
        unfold addDistinct
        rw [if_neg (fun hcon => absurd (hcc.symm.trans hcon) Bool.false_ne_true)]
      rw [ha, ih (a :: bs), List.reverse_cons]

theorem foldl_addDistinct_eq_eraseDups (l : List String) :
    l.foldl addDistinct [] = l.eraseDups := by
  have h := eraseDups_loop_eq_foldl l []
  simpa [List.eraseDups] using h.symm

theorem collectSources_eq_eraseDups (docs : List RetrievedDoc) :
    collectSources docs = (docs.map (fun d => d.source)).eraseDups := by
  unfold collectSources
  rw [foldl_addDistinct_map, foldl_addDistinct_eq_eraseDups]

theorem foldl_addDistinct_nodup (l : List String) (acc : List String) (h : acc.Nodup) :
    (l.foldl addDistinct acc).Nodup := by
  induction l generalizing acc with
  | nil => exact h
  | cons a as ih =>
    simp only [List.foldl]
    apply ih
    unfold addDistinct
    by_cases hc : acc.contains a = true
    · rw [if_pos hc]
      exact h
    · rw [if_neg hc]
      have ha : a ∉ acc := fun hm => hc (List.elem_eq_true_of_mem hm)
      rw [List.nodup_append]
      exact ⟨h, List.nodup_singleton a, by simp [List.disjoint_singleton, ha]⟩

theorem mem_foldl_addDistinct (l acc : List String) (s : String) :
    s ∈ l.foldl addDistinct acc ↔ s ∈ acc ∨ s ∈ l := by
  induction l generalizing acc with
  | nil => simp
  | cons a as ih =>
    simp only [List.foldl]
    rw [ih]
    unfold addDistinct
    by_cases hc : acc.contains a = true
    · rw [if_pos hc]
      constructor
      · rintro (h | h)
        · exact Or.inl h
        · exact Or.inr (List.mem_cons_of_mem _ h)
      · rintro (h | h)
        · exact Or.inl h
        · rcases List.mem_cons.mp h with rfl | h
          · exact Or.inl (List.mem_of_elem_eq_true hc)
          · exact Or.inr h
    · rw [if_neg hc]
      simp only [List.mem_append, List.mem_singleton, List.mem_cons]
      tauto

/-- C7: the sources list returned by `ChichewaRAGChain.generate_answer`
lists each distinct document source exactly once, in order of first
occurrence (it equals `eraseDups` of the source column and has no
duplicates), and is empty when the retrieved list is empty. -/
theorem generate_answer_sources_spec (env : RAGEnv) (english_query : String)
    (retrieved_docs : List RetrievedDoc) (language : String) :
    (generate_answer env english_query retrieved_docs language).2 =
      (retrieved_docs.map (fun d => d.source)).eraseDups ∧
    ((generate_answer env english_query retrieved_docs language).2).Nodup ∧
    (retrieved_docs = [] →
      (generate_answer env english_query retrieved_docs language).2 = []) ∧
    (∀ s, s ∈ (generate_answer env english_query retrieved_docs language).2 ↔
       s ∈ retrieved_docs.map (fun d => d.source)) := by
  have key : (generate_answer env english_query retrieved_docs language).2 =
      (retrieved_docs.map (fun d => d.source)).eraseDups := by
    unfold generate_answer
    cases retrieved_docs with
    | nil => cases env.noResultsResp english_query <;> rfl
    | cons d ds =>
      rw [if_neg (by simp)]
      cases env.generateResp english_query (d :: ds) <;>
        simp [collectSources_eq_eraseDups]
  refine ⟨key, ?_, ?_, ?_⟩
  · rw [key, ← foldl_addDistinct_eq_eraseDups]
    exact foldl_addDistinct_nodup _ _ List.nodup_nil
  · intro hd
    subst hd
    rw [key]
    rfl
  · intro s
    rw [key, ← foldl_addDistinct_eq_eraseDups, mem_foldl_addDistinct]
    simp

/-- Witness for C7: retrieving nothing yields an empty sources list, and a
run with a duplicated source keeps one copy in first-occurrence order. -/
theorem generate_answer_sources_spec_witness :
    (generate_answer allErrorRAGEnv "query" [] "english").2 = [] ∧
    (generate_answer allErrorRAGEnv "query"
        [{ content := "c1", source := "a.pdf", file_path := "" },
         { content := "c2", source := "b.pdf", file_path := "" },
         { content := "c3", source := "a.pdf", file_path := "" }] "english").2 =
      ["a.pdf", "b.pdf"] := by
  refine ⟨(generate_answer_sources_spec allErrorRAGEnv "query" [] "english").2.2.1 rfl, ?_⟩
  have h :=
    (generate_answer_sources_spec allErrorRAGEnv "query"
        [{ content := "c1", source := "a.pdf", file_path := "" },
         { content := "c2", source := "b.pdf", file_path := "" },
         { content := "c3", source := "a.pdf", file_path := "" }] "english").1
  rw [h]
  decide

/-- C4: `ChichewaRAGChain.retrieve_documents` queries the vector store with
the fixed `retrieval_k` of the chain (5 by construction default), formats
each returned document with the "Unknown" and "" metadata defaults, depends
on the search oracle only through its value at that k, and returns at most
`retrieval_k` entries whenever the vector store honours its k contract. -/
theorem retrieve_documents_spec (chain : ChichewaRAGChain) (env : RAGEnv)
    (english_query : String) :
    (∀ docs, env.searchResp english_query chain.retrieval_k = Except.ok docs →
       retrieve_documents chain env english_query = docs.map formatDoc) ∧
    (env.searchResp english_query chain.retrieval_k = Except.error () →
       retrieve_documents chain env english_query = []) ∧
    ((∀ docs, env.searchResp english_query chain.retrieval_k = Except.ok docs →
        docs.length ≤ chain.retrieval_k) →
      (retrieve_documents chain env english_query).length ≤ chain.retrieval_k) ∧
    (∀ d, formatDoc d =
      { content := d.page_content
        source := d.metadata_source.getD "Unknown"
        file_path := d.metadata_file_path.getD "" }) ∧
    defaultChain.retrieval_k = 5 ∧
    (∀ f : String → Nat → Except Unit (List Doc),
       f english_query chain.retrieval_k = env.searchResp english_query chain.retrieval_k →
       retrieve_documents chain { env with searchResp := f } english_query =
         retrieve_documents chain env english_query) := by
  refine ⟨?_, ?_, ?_, ?_, rfl, ?_⟩
  · intro docs h
    unfold retrieve_documents
    rw [h]
  · intro h
    unfold retrieve_documents
    rw [h]
  · intro hk
    unfold retrieve_documents
    cases h : env.searchResp english_query chain.retrieval_k with
    | error e => simp
    | ok docs =>
      simpa using hk docs h
  · intro d
    rfl
  · intro f hf
    unfold retrieve_documents
    rw [show ({ env with searchResp := f } : RAGEnv).searchResp english_query chain.retrieval_k =
          env.searchResp english_query chain.retrieval_k from hf]

/-- Witness for C4: one retrieved document with a missing file_path is
formatted with the defaults and the result respects the k bound. -/
theorem retrieve_documents_spec_witness :
    retrieve_documents defaultChain inquiryRAGEnv "what savings accounts exist" =
      [{ content := "Savings account details", source := "products.pdf", file_path := "" }] ∧
    (retrieve_documents defaultChain inquiryRAGEnv "what savings accounts exist").length ≤
      defaultChain.retrieval_k := by
  have h := retrieve_documents_spec defaultChain inquiryRAGEnv "what savings accounts exist"
  refine ⟨?_, ?_⟩
  · rw [h.1 [{ page_content := "Savings account details"
               metadata_source := some "products.pdf"
               metadata_file_path := none }] rfl]
    decide
  · exact h.2.2.1 (fun docs hd => by cases hd; decide)

/-- C6: `StructuredPromptChain.build_structured_context` is pure string
formatting over the fixed knowledge base: for a known product key it emits
the product header followed by exactly the sections selected by the intent
(BENEFITS, REQUIREMENTS, FEES, FEATURES, each present for its own intent
and for "general"), and for a missing or unknown key it emits the listing
of all products. -/
theorem build_structured_context_spec (query_intent : String)
    (product_key : Option String) :
    (∀ key product, product_key = some key → kb_lookup key = some product →
       build_structured_context query_intent product_key =
         "PRODUCT: " ++ product.name ++ "\n" ++
         "CATEGORY: " ++ product.category ++ "\n" ++
         "TARGET AUDIENCE: " ++ product.target_audience ++ "\n\n" ++
         (if query_intent = "benefits" ∨ query_intent = "general" then
            "BENEFITS:\n" ++ numberedLines product.benefits ++ "\n"
          else "") ++
         (if query_intent = "requirements" ∨ query_intent = "general" then
            "REQUIREMENTS:\n" ++ numberedLines product.requirements ++ "\n"
          else "") ++
         (if query_intent = "fees" ∨ query_intent = "general" then
            "FEES:\n" ++ String.join (product.fees.map feeLine) ++ "\n"
          else "") ++
         (if query_intent = "features" ∨ query_intent = "general" then
            "FEATURES:\n" ++ numberedLines product.features ++ "\n"
          else "")) ∧
    (product_key = none →
       build_structured_context query_intent product_key = allProductsContext query_intent) ∧
    (∀ key, product_key = some key → kb_lookup key = none →
       build_structured_context query_intent product_key = allProductsContext query_intent) := by
  refine ⟨?_, ?_, ?_⟩
  · intro key product hk hp
    subst hk
    simp only [build_structured_context]
    have hkey : key ≠ "" := by
      intro h0
      subst h0
      rw [show kb_lookup "" = none from rfl] at hp
      cases hp
    rw [if_pos hkey, hp]
    unfold productContext
    by_cases c1 : query_intent = "benefits" ∨ query_intent = "general" <;>
    by_cases c2 : query_intent = "requirements" ∨ query_intent = "general" <;>
    by_cases c3 : query_intent = "fees" ∨ query_intent = "general" <;>
    by_cases c4 : query_intent = "features" ∨ query_intent = "general" <;>
      (simp only [c1, c2, c3, c4, if_true, if_false, ite_true, ite_false,
        not_false_eq_true, String.append_empty]
       all_goals exact String.ext (by simp only [String.data_append, List.append_assoc]))
  · intro hk
    subst hk
    rfl
  · intro key hk hnone
    subst hk
    simp only [build_structured_context]
    by_cases hkey : key ≠ ""
    · rw [if_pos hkey, hnone]
    · rw [if_neg hkey]

/-- Witness for C6: the mlimi product with the "benefits" intent yields the
header plus only the BENEFITS section, and an unknown key yields the
all-products listing. -/
theorem build_structured_context_spec_witness :
    build_structured_context "benefits" (some "mlimi") =
      "PRODUCT: " ++ mlimi_product.name ++ "\n" ++
      "CATEGORY: " ++ mlimi_product.category ++ "\n" ++
      "TARGET AUDIENCE: " ++ mlimi_product.target_audience ++ "\n\n" ++
      ("BENEFITS:\n" ++ numberedLines mlimi_product.benefits ++ "\n") ∧
    build_structured_context "fees" (some "unknown_product") = allProductsContext "fees" := by
  constructor
  · have h :=
      (build_structured_context_spec "benefits" (some "mlimi")).1 "mlimi" mlimi_product rfl rfl
    rw [h]
    simp
  · exact (build_structured_context_spec "fees" (some "unknown_product")).2.2
      "unknown_product" rfl rfl

theorem session_limit_message_ne :
    ("Mwaposa muyeso wa mafunso mu session iyi (" ++ toString MAX_QUERIES_PER_SESSION ++
      " mafunso). Chonde yambitsaninso tsamba.") ≠ "" := by
  decide

theorem hourly_limit_message_ne :
    ("Mwaposa muyeso wa mafunso pa ola (" ++ toString MAX_QUERIES_PER_HOUR ++
      " mafunso pa ola). Chonde yesani mu ola limene likubweralo.") ≠ "" := by
  decide

theorem can_make_query_state_count (d : RateLimiterData) (now : Int) :
    ((can_make_query d now).2.2).session_count = d.session_count := by
  unfold can_make_query
  by_cases hs : d.session_count ≥ MAX_QUERIES_PER_SESSION
  · rw [if_pos hs]
  · rw [if_neg hs]
    by_cases hh : (pruned_hourly d now).length ≥ MAX_QUERIES_PER_HOUR
    · rw [if_pos hh]
    · rw [if_neg hh]

theorem can_make_query_true_count (d : RateLimiterData) (now : Int)
    (h : (can_make_query d now).1 = true) :
    d.session_count < MAX_QUERIES_PER_SESSION := by
  by_cases hs : d.session_count ≥ MAX_QUERIES_PER_SESSION
  · unfold can_make_query at h
    rw [if_pos hs] at h
    cases h
  · omega

theorem mainLoopStep_session_le (d : RateLimiterData) (now recordTime : Int)
    (llm_ok : Bool) (h : d.session_count ≤ MAX_QUERIES_PER_SESSION) :
    (mainLoopStep d now recordTime llm_ok).session_count ≤ MAX_QUERIES_PER_SESSION := by
  unfold mainLoopStep
  by_cases hcan : (can_make_query d now).1 = true
  · rw [if_pos hcan]
    have hlt := can_make_query_true_count d now hcan
    have hc := can_make_query_state_count d now
    cases llm_ok with
    | true =>
      rw [if_pos rfl]
      show ((can_make_query d now).2.2).session_count + 1 ≤ MAX_QUERIES_PER_SESSION
      omega
    | false =>
      rw [if_neg Bool.false_ne_true]
      omega
  · rw [if_neg hcan]
    rw [can_make_query_state_count]
    exact h

theorem runMainLoop_session_le (events : List (Int × Int × Bool))
    (d : RateLimiterData) (h : d.session_count ≤ MAX_QUERIES_PER_SESSION) :
    (runMainLoop d events).session_count ≤ MAX_QUERIES_PER_SESSION := by
  induction events generalizing d with
  | nil => exact h
  | cons e es ih =>
    exact ih _ (mainLoopStep_session_le d e.1 e.2.1 e.2.2 h)

/-- C9: the rate limiter denies (with a message) whenever the session count
has reached MAX_QUERIES_PER_SESSION (20) or the queries recorded within the
last RATE_LIMIT_WINDOW (3600 s) have reached MAX_QUERIES_PER_HOUR (10);
record_query adds exactly 1 to the session count and one timestamp; and
along any run of the chat loop, which records only after a positive check,
the session count never exceeds 20. -/
theorem rate_limiter_spec :
    (∀ (d : RateLimiterData) (now : Int),
       d.session_count ≥ MAX_QUERIES_PER_SESSION →
       (can_make_query d now).1 = false ∧ (can_make_query d now).2.1 ≠ "") ∧
    (∀ (d : RateLimiterData) (now : Int),
       (pruned_hourly d now).length ≥ MAX_QUERIES_PER_HOUR →
       (can_make_query d now).1 = false ∧ (can_make_query d now).2.1 ≠ "") ∧
    (∀ (d : RateLimiterData) (now : Int),
       (record_query d now).session_count = d.session_count + 1 ∧
       (record_query d now).hourly_queries = d.hourly_queries ++ [now]) ∧
    (∀ (d : RateLimiterData) (now recordTime : Int) (llm_ok : Bool),
       d.session_count ≤ MAX_QUERIES_PER_SESSION →
       (mainLoopStep d now recordTime llm_ok).session_count ≤ MAX_QUERIES_PER_SESSION) ∧
    (∀ (start : Int) (events : List (Int × Int × Bool)),
       (runMainLoop (RateLimiterData.initial start) events).session_count ≤
         MAX_QUERIES_PER_SESSION) := by
  refine ⟨?_, ?_, ?_, ?_, ?_⟩
  · intro d now h
    unfold can_make_query
    rw [if_pos h]
    exact ⟨rfl, session_limit_message_ne⟩
  · intro d now h
    by_cases hs : d.session_count ≥ MAX_QUERIES_PER_SESSION
    · unfold can_make_query
      rw [if_pos hs]
      exact ⟨rfl, session_limit_message_ne⟩
    · unfold can_make_query
      rw [if_neg hs, if_pos h]
      exact ⟨rfl, hourly_limit_message_ne⟩
  · intro d now
    exact ⟨rfl, rfl⟩
  · exact mainLoopStep_session_le
  · intro start events
    exact runMainLoop_session_le events _ (Nat.zero_le _)

/-- Witness for C9: a full session is denied, and a concrete two-query run
from the initial state respects the session cap. -/
theorem rate_limiter_spec_witness :
    (can_make_query { session_count := 20, hourly_queries := [], session_start := 0 } 5000).1 =
      false ∧
    (runMainLoop (RateLimiterData.initial 0)
        [(10, 11, true), (20, 21, true)]).session_count ≤ MAX_QUERIES_PER_SESSION := by
  exact ⟨(rate_limiter_spec.1 { session_count := 20, hourly_queries := [], session_start := 0 }
      5000 (by decide)).1,
    rate_limiter_spec.2.2.2.2 0 [(10, 11, true), (20, 21, true)]⟩

theorem answer_query_greeting_eq (chain : ChichewaRAGChain) (env : RAGEnv)
    (user_query : String) (return_metadata : Bool)
    (hg : classify_query env
        (if detect_language env.translator user_query = "chichewa" then
          translate_to_english env.translator user_query
         else user_query) = "greeting") :
    answer_query chain env user_query return_metadata =
      { answer := handle_greeting env (detect_language env.translator user_query)
        query_type := "greeting"
        sources := []
        english_query :=
          if detect_language env.translator user_query = "chichewa" then
            translate_to_english env.translator user_query
          else user_query
        detected_language := detect_language env.translator user_query } := by
  simp only [answer_query, hg]
  rw [if_pos trivial]

theorem answer_query_oos_eq (chain : ChichewaRAGChain) (env : RAGEnv)
    (user_query : String) (return_metadata : Bool)
    (ho : classify_query env
        (if detect_language env.translator user_query = "chichewa" then
          translate_to_english env.translator user_query
         else user_query) = "out_of_scope") :
    answer_query chain env user_query return_metadata =
      { answer := handle_out_of_scope env (detect_language env.translator user_query)
        query_type := "out_of_scope"
        sources := []
        english_query :=
          if detect_language env.translator user_query = "chichewa" then
            translate_to_english env.translator user_query
          else user_query
        detected_language := detect_language env.translator user_query } := by
  simp only [answer_query, ho]
  rw [if_neg (by decide), if_pos trivial]

theorem answer_query_else_eq (chain : ChichewaRAGChain) (env : RAGEnv)
    (user_query : String) (return_metadata : Bool)
    (h1 : ¬ classify_query env
        (if detect_language env.translator user_query = "chichewa" then
          translate_to_english env.translator user_query
         else user_query) = "greeting")
    (h2 : ¬ classify_query env
        (if detect_language env.translator user_query = "chichewa" then
          translate_to_english env.translator user_query
         else user_query) = "out_of_scope") :
    answer_query chain env user_query return_metadata =
      { answer :=
          if detect_language env.translator user_query = "chichewa" then
            translate_to_chichewa env.translator
              (generate_answer env
                (if detect_language env.translator user_query = "chichewa" then
                  translate_to_english env.translator user_query
                 else user_query)
                (retrieve_documents chain env
                  (if detect_language env.translator user_query = "chichewa" then
                    translate_to_english env.translator user_query
                   else user_query))
                (detect_language env.translator user_query)).1
          else
            (generate_answer env
              (if detect_language env.translator user_query = "chichewa" then
                translate_to_english env.translator user_query
               else user_query)
              (retrieve_documents chain env
                (if detect_language env.translator user_query = "chichewa" then
                  translate_to_english env.translator user_query
                 else user_query))
              (detect_language env.translator user_query)).1
        query_type :=
          classify_query env
            (if detect_language env.translator user_query = "chichewa" then
              translate_to_english env.translator user_query
             else user_query)
        sources :=
          (generate_answer env
            (if detect_language env.translator user_query = "chichewa" then
              translate_to_english env.translator user_query
             else user_query)
            (retrieve_documents chain env
              (if detect_language env.translator user_query = "chichewa" then
                translate_to_english env.translator user_query
               else user_query))
            (detect_language env.translator user_query)).2
        english_query :=
          if detect_language env.translator user_query = "chichewa" then
            translate_to_english env.translator user_query
          else user_query
        detected_language := detect_language env.translator user_query
        english_answer :=
          if return_metadata then
            some (generate_answer env
              (if detect_language env.translator user_query = "chichewa" then
                translate_to_english env.translator user_query
               else user_query)
              (retrieve_documents chain env
                (if detect_language env.translator user_query = "chichewa" then
                  translate_to_english env.translator user_query
                 else user_query))
              (detect_language env.translator user_query)).1
          else none
        retrieved_docs :=
          if return_metadata then
            some (retrieve_documents chain env
              (if detect_language env.translator user_query = "chichewa" then
                translate_to_english env.translator user_query
               else user_query))
          else none } := by
  simp only [answer_query]
  rw [if_neg h1, if_neg h2]

/-- C1: `ChichewaRAGChain.answer_query` routes on the classification: the
"greeting" and "out_of_scope" classifications yield the canned (possibly
translated) message with empty sources, and the response is then
independent of the vector-store oracle; every other classification yields
the response assembled from `retrieve_documents` followed by
`generate_answer`. -/
theorem answer_query_routing (chain : ChichewaRAGChain) (env : RAGEnv)
    (user_query : String) (return_metadata : Bool) :
    (classify_query env
        (if detect_language env.translator user_query = "chichewa" then
          translate_to_english env.translator user_query
         else user_query) = "greeting" →
      (answer_query chain env user_query return_metadata =
        { answer := handle_greeting env (detect_language env.translator user_query)
          query_type := "greeting"
          sources := []
          english_query :=
            if detect_language env.translator user_query = "chichewa" then
              translate_to_english env.translator user_query
            else user_query
          detected_language := detect_language env.translator user_query }) ∧
      (∀ s, answer_query chain { env with searchResp := s } user_query return_metadata =
        answer_query chain env user_query return_metadata)) ∧
    (classify_query env
        (if detect_language env.translator user_query = "chichewa" then
          translate_to_english env.translator user_query
         else user_query) = "out_of_scope" →
      (answer_query chain env user_query return_metadata =
        { answer := handle_out_of_scope env (detect_language env.translator user_query)
          query_type := "out_of_scope"
          sources := []
          english_query :=
            if detect_language env.translator user_query = "chichewa" then
              translate_to_english env.translator user_query
            else user_query
          detected_language := detect_language env.translator user_query }) ∧
      (∀ s, answer_query chain { env with searchResp := s } user_query return_metadata =
        answer_query chain env user_query return_metadata)) ∧
    (¬ classify_query env
        (if detect_language env.translator user_query = "chichewa" then
          translate_to_english env.translator user_query
         else user_query) = "greeting" →
     ¬ classify_query env
        (if detect_language env.translator user_query = "chichewa" then
          translate_to_english env.translator user_query
         else user_query) = "out_of_scope" →
      (answer_query chain env user_query return_metadata).sources =
        (generate_answer env
          (if detect_language env.translator user_query = "chichewa" then
            translate_to_english env.translator user_query
           else user_query)
          (retrieve_documents chain env
            (if detect_language env.translator user_query = "chichewa" then
              translate_to_english env.translator user_query
             else user_query))
          (detect_language env.translator user_query)).2 ∧
      (answer_query chain env user_query return_metadata).answer =
        (if detect_language env.translator user_query = "chichewa" then
          translate_to_chichewa env.translator
            (generate_answer env
              (if detect_language env.translator user_query = "chichewa" then
                translate_to_english env.translator user_query
               else user_query)
              (retrieve_documents chain env
                (if detect_language env.translator user_query = "chichewa" then
                  translate_to_english env.translator user_query
                 else user_query))
              (detect_language env.translator user_query)).1
         else
          (generate_answer env
            (if detect_language env.translator user_query = "chichewa" then
              translate_to_english env.translator user_query
             else user_query)
            (retrieve_documents chain env
              (if detect_language env.translator user_query = "chichewa" then
                translate_to_english env.translator user_query
               else user_query))
            (detect_language env.translator user_query)).1) ∧
      (answer_query chain env user_query return_metadata).query_type =
        classify_query env
          (if detect_language env.translator user_query = "chichewa" then
            translate_to_english env.translator user_query
           else user_query)) := by
  refine ⟨?_, ?_, ?_⟩
  · intro hg
    refine ⟨answer_query_greeting_eq chain env user_query return_metadata hg, ?_⟩
    intro s
    have hg' : classify_query { env with searchResp := s }
        (if detect_language ({ env with searchResp := s } : RAGEnv).translator user_query = "chichewa" then
          translate_to_english ({ env with searchResp := s } : RAGEnv).translator user_query
         else user_query) = "greeting" := hg
    rw [answer_query_greeting_eq chain { env with searchResp := s } user_query return_metadata hg',
      answer_query_greeting_eq chain env user_query return_metadata hg]
    rfl
  · intro ho
    refine ⟨answer_query_oos_eq chain env user_query return_metadata ho, ?_⟩
    intro s
    have ho' : classify_query { env with searchResp := s }
        (if detect_language ({ env with searchResp := s } : RAGEnv).translator user_query = "chichewa" then
          translate_to_english ({ env with searchResp := s } : RAGEnv).translator user_query
         else user_query) = "out_of_scope" := ho
    rw [answer_query_oos_eq chain { env with searchResp := s } user_query return_metadata ho',
      answer_query_oos_eq chain env user_query return_metadata ho]
    rfl
  · intro h1 h2
    rw [answer_query_else_eq chain env user_query return_metadata h1 h2]
    exact ⟨rfl, rfl, rfl⟩

set_option maxRecDepth 4000 in
/-- Witness for C1: a concrete greeting run returns the canned English
greeting with no sources. -/
theorem answer_query_routing_witness :
    answer_query defaultChain greetingRAGEnv "Hello there" false =
      { answer := greeting_english
        query_type := "greeting"
        sources := []
        english_query := "Hello there"
        detected_language := "english" } := by
  have h :=
    (answer_query_routing defaultChain greetingRAGEnv "Hello there" false).1 (by decide)
  exact h.1.trans (by decide)

/-- C5: `answer_query` translates conditionally: for an English query the
English query used downstream is the user query itself and the final answer
is the English answer unchanged, while for a Chichewa query the English
query is the translation of the user query and the final answer is the
Chichewa translation of the English answer. -/
theorem answer_query_translation (chain : ChichewaRAGChain) (env : RAGEnv)
    (user_query : String) :
    (detect_language env.translator user_query = "english" →
      (answer_query chain env user_query true).english_query = user_query ∧
      (∀ ea, (answer_query chain env user_query true).english_answer = some ea →
        (answer_query chain env user_query true).answer = ea)) ∧
    (detect_language env.translator user_query = "chichewa" →
      (answer_query chain env user_query true).english_query =
        translate_to_english env.translator user_query ∧
      (∀ ea, (answer_query chain env user_query true).english_answer = some ea →
        (answer_query chain env user_query true).answer =
          translate_to_chichewa env.translator ea)) := by
  constructor
  · intro hd
    have hq : (if detect_language env.translator user_query = "chichewa" then
        translate_to_english env.translator user_query
       else user_query) = user_query := by
      rw [hd]
      exact if_neg (by decide)
    by_cases hg : classify_query env
        (if detect_language env.translator user_query = "chichewa" then
          translate_to_english env.translator user_query
         else user_query) = "greeting"
    · rw [answer_query_greeting_eq chain env user_query true hg]
      exact ⟨hq, fun ea hea => by cases hea⟩
    · by_cases ho : classify_query env
          (if detect_language env.translator user_query = "chichewa" then
            translate_to_english env.translator user_query
           else user_query) = "out_of_scope"
      · rw [answer_query_oos_eq chain env user_query true ho]
        exact ⟨hq, fun ea hea => by cases hea⟩
      · rw [answer_query_else_eq chain env user_query true hg ho]
        refine ⟨hq, ?_⟩
        intro ea hea
        have h4 : (generate_answer env
            (if detect_language env.translator user_query = "chichewa" then
              translate_to_english env.translator user_query
             else user_query)
            (retrieve_documents chain env
              (if detect_language env.translator user_query = "chichewa" then
                translate_to_english env.translator user_query
               else user_query))
            (detect_language env.translator user_query)).1 = ea := by
          have hea' : some (generate_answer env
              (if detect_language env.translator user_query = "chichewa" then
                translate_to_english env.translator user_query
               else user_query)
              (retrieve_documents chain env
                (if detect_language env.translator user_query = "chichewa" then
                  translate_to_english env.translator user_query
                 else user_query))
              (detect_language env.translator user_query)).1 = some ea := hea
          exact Option.some.inj hea'
        have hne : ¬ detect_language env.translator user_query = "chichewa" := by
          rw [hd]
          decide
        show (if detect_language env.translator user_query = "chichewa" then _ else _) = ea
        rw [if_neg hne]
        exact h4
  · intro hd
    have hq : (if detect_language env.translator user_query = "chichewa" then
        translate_to_english env.translator user_query
       else user_query) = translate_to_english env.translator user_query := by
      rw [hd]
      exact if_pos rfl
    by_cases hg : classify_query env
        (if detect_language env.translator user_query = "chichewa" then
          translate_to_english env.translator user_query
         else user_query) = "greeting"
    · rw [answer_query_greeting_eq chain env user_query true hg]
      exact ⟨hq, fun ea hea => by cases hea⟩
    · by_cases ho : classify_query env
          (if detect_language env.translator user_query = "chichewa" then
            translate_to_english env.translator user_query
           else user_query) = "out_of_scope"
      · rw [answer_query_oos_eq chain env user_query true ho]
        exact ⟨hq, fun ea hea => by cases hea⟩
      · rw [answer_query_else_eq chain env user_query true hg ho]
        refine ⟨hq, ?_⟩
        intro ea hea
        have h4 : (generate_answer env
            (if detect_language env.translator user_query = "chichewa" then
              translate_to_english env.translator user_query
             else user_query)
            (retrieve_documents chain env
              (if detect_language env.translator user_query = "chichewa" then
                translate_to_english env.translator user_query
               else user_query))
            (detect_language env.translator user_query)).1 = ea := by
          have hea' : some (generate_answer env
              (if detect_language env.translator user_query = "chichewa" then
                translate_to_english env.translator user_query
               else user_query)
              (retrieve_documents chain env
                (if detect_language env.translator user_query = "chichewa" then
                  translate_to_english env.translator user_query
                 else user_query))
              (detect_language env.translator user_query)).1 = some ea := hea
          exact Option.some.inj hea'
        show (if detect_language env.translator user_query = "chichewa" then _ else _) =
          translate_to_chichewa env.translator ea
        rw [if_pos hd, h4]

set_option maxRecDepth 4000 in
/-- Witness for C5: an English product inquiry returns the generated
English answer unchanged. -/
theorem answer_query_translation_witness :
    (answer_query defaultChain inquiryRAGEnv "What loans exist" true).answer =
      "Here is the answer." := by
  have h :=
    (answer_query_translation defaultChain inquiryRAGEnv "What loans exist").1 (by decide)
  exact h.2 "Here is the answer." (by decide)

end ChichewaBot
